import Mathlib

/-!
Verification of the `audio-extractor` Flask service (`app.py`) against its
natural-language specification.  The Python source is shallowly embedded:
pure helpers become Lean functions, filesystem state becomes explicit lists
of filenames / strings, and external collaborators (ffmpeg, the Vosk
recognizer, werkzeug's `secure_filename`) become opaque function parameters.
-/

namespace AudioExtractor

/-! ### Decimal rendering of the retry counter

Python's f-string `f"{name}_{counter}{extension}"` renders the counter in
decimal.  `natDec` is that decimal rendering, written fuel-structurally so
it evaluates by `decide`/`rfl`. -/

/-- The character for a single decimal digit (Python decimal formatting). -/
def digitCh (d : Nat) : Char :=
  match d with
  | 0 => '0' | 1 => '1' | 2 => '2' | 3 => '3' | 4 => '4'
  | 5 => '5' | 6 => '6' | 7 => '7' | 8 => '8' | _ => '9'

/-- Reads the digit back; inverse of `digitCh` on digits `< 10`. -/
def digitVal (c : Char) : Nat :=
  match c with
  | '0' => 0 | '1' => 1 | '2' => 2 | '3' => 3 | '4' => 4
  | '5' => 5 | '6' => 6 | '7' => 7 | '8' => 8 | _ => 9

/-- Decimal digit characters of `n`, most significant first.  The fuel is
only a structural-recursion device; `fuel ≥ n + 1` always suffices. -/
def natDecAux : Nat → Nat → List Char
  | 0, _ => []
  | fuel + 1, n =>
    if n < 10 then [digitCh n]
    else natDecAux fuel (n / 10) ++ [digitCh (n % 10)]

/-- Decimal rendering of a natural number, as Python's `str`/f-string does. -/
def natDec (n : Nat) : String :=
  ⟨natDecAux (n + 1) n⟩

example : natDec 0 = "0" := rfl
example : natDec 7 = "7" := rfl
example : natDec 12 = "12" := rfl
example : natDec 120 = "120" := rfl

theorem digitVal_digitCh {d : Nat} (h : d < 10) : digitVal (digitCh d) = d := by
  interval_cases d <;> rfl

theorem digitCh_inj {d e : Nat} (hd : d < 10) (he : e < 10)
    (h : digitCh d = digitCh e) : d = e := by
  have := congrArg digitVal h
  rwa [digitVal_digitCh hd, digitVal_digitCh he] at this

theorem natDecAux_succ (fuel n : Nat) :
    natDecAux (fuel + 1) n =
      if n < 10 then [digitCh n]
      else natDecAux fuel (n / 10) ++ [digitCh (n % 10)] := rfl

theorem natDecAux_ne_nil (fuel n : Nat) : natDecAux (fuel + 1) n ≠ [] := by
  rw [natDecAux_succ]
  split <;> simp

/-- The fuel is irrelevant as long as it exceeds `n`. -/
theorem natDecAux_fuel : ∀ n f₁ f₂ : Nat, n < f₁ → n < f₂ →
    natDecAux f₁ n = natDecAux f₂ n := by
  intro n
  induction n using Nat.strong_induction_on with
  | _ n ih =>
    intro f₁ f₂ h₁ h₂
    obtain ⟨a, rfl⟩ : ∃ a, f₁ = a + 1 := ⟨f₁ - 1, by omega⟩
    obtain ⟨b, rfl⟩ : ∃ b, f₂ = b + 1 := ⟨f₂ - 1, by omega⟩
    rw [natDecAux_succ, natDecAux_succ]
    by_cases h10 : n < 10
    · simp [h10]
    · have hdiv : n / 10 < n := Nat.div_lt_self (by omega) (by omega)
      simp only [h10, if_false]
      rw [ih (n / 10) hdiv a b (by omega) (by omega)]

/-- Canonical unfolding of the decimal form for a multi-digit number. -/
theorem natDec_data_ge10 {n : Nat} (h : ¬ n < 10) :
    natDecAux (n + 1) n
      = natDecAux (n / 10 + 1) (n / 10) ++ [digitCh (n % 10)] := by
  rw [natDecAux_succ]
  simp only [h, if_false]
  rw [natDecAux_fuel (n / 10) n (n / 10 + 1)
    (Nat.div_lt_self (by omega) (by omega)) (by omega)]

theorem natDec_inj : ∀ m n : Nat, natDec m = natDec n → m = n := by
  intro m
  induction m using Nat.strong_induction_on with
  | _ m ih =>
    intro n h
    have h' : natDecAux (m + 1) m = natDecAux (n + 1) n :=
      congrArg String.data h
    by_cases hm : m < 10 <;> by_cases hn : n < 10
    · -- both single digit
      have hL : natDecAux (m + 1) m = [digitCh m] := by
        rw [natDecAux_succ]; simp [hm]
      have hR : natDecAux (n + 1) n = [digitCh n] := by
        rw [natDecAux_succ]; simp [hn]
      rw [hL, hR] at h'
      exact digitCh_inj hm hn (List.head_eq_of_cons_eq h')
    · -- m single digit, n not: lengths differ
      exfalso
      have hL : natDecAux (m + 1) m = [digitCh m] := by
        rw [natDecAux_succ]; simp [hm]
      rw [hL, natDec_data_ge10 hn] at h'
      have hne : natDecAux (n / 10 + 1) (n / 10) ≠ [] := natDecAux_ne_nil _ _
      have hlen := congrArg List.length h'
      rw [List.length_append] at hlen
      have : 1 ≤ (natDecAux (n / 10 + 1) (n / 10)).length :=
        Nat.one_le_iff_ne_zero.mpr fun hz => hne (List.length_eq_zero.mp hz)
      simp only [List.length_cons, List.length_nil] at hlen
      omega
    · -- n single digit, m not: symmetric
      exfalso
      have hR : natDecAux (n + 1) n = [digitCh n] := by
        rw [natDecAux_succ]; simp [hn]
      rw [hR, natDec_data_ge10 hm] at h'
      have hne : natDecAux (m / 10 + 1) (m / 10) ≠ [] := natDecAux_ne_nil _ _
      have hlen := congrArg List.length h'
      rw [List.length_append] at hlen
      have : 1 ≤ (natDecAux (m / 10 + 1) (m / 10)).length :=
        Nat.one_le_iff_ne_zero.mpr fun hz => hne (List.length_eq_zero.mp hz)
      simp only [List.length_cons, List.length_nil] at hlen
      omega
    · -- both multi-digit: peel the last digit, recurse
      rw [natDec_data_ge10 hm, natDec_data_ge10 hn] at h'
      have hlast : digitCh (m % 10) = digitCh (n % 10) ∧
          natDecAux (m / 10 + 1) (m / 10) = natDecAux (n / 10 + 1) (n / 10) := by
        have hrev := congrArg List.reverse h'
        simp only [List.reverse_append, List.reverse_cons, List.reverse_nil,
          List.nil_append, List.singleton_append, List.cons.injEq] at hrev
        exact ⟨hrev.1, by
          have := congrArg List.reverse hrev.2
          simpa using this⟩
      have hdm : m / 10 < m := Nat.div_lt_self (by omega) (by omega)
      have hmod : m % 10 = n % 10 :=
        digitCh_inj (Nat.mod_lt _ (by omega)) (Nat.mod_lt _ (by omega)) hlast.1
      have hquot : m / 10 = n / 10 :=
        ih (m / 10) hdm (n / 10) (congrArg String.mk hlast.2)
      omega

/-! ### `os.path.splitext` -/

/-- Index of the last character satisfying `p`, as Python's `str.rfind`
(`none` standing for Python's `-1`). -/
def rfindIdx (p : Char → Bool) : List Char → Option Nat
  | [] => none
  | c :: cs =>
    match rfindIdx p cs with
    | some i => some (i + 1)
    | none => if p c then some 0 else none

/-- Embeds `os.path.splitext`: splits off the extension at the last dot, except
that dots leading the basename (everything up to the last path separator)
do not start an extension. -/
def splitext (s : String) : String × String :=
  let cs := s.data
  match rfindIdx (fun c => c == '.') cs with
  | none => (s, "")
  | some di =>
    let fstart : Nat :=
      match rfindIdx (fun c => c == '/') cs with
      | none => 0
      | some j => j + 1
    if ((cs.drop fstart).take (di - fstart)).any (fun c => c != '.') then
      (⟨cs.take di⟩, ⟨cs.drop di⟩)
    else (s, "")

example : splitext "a.txt" = ("a", ".txt") := by decide
example : splitext ".txt" = (".txt", "") := by decide
example : splitext "a.b.c" = ("a.b", ".c") := by decide
example : splitext "noext" = ("noext", "") := by decide
example : splitext "d/.txt" = ("d/.txt", "") := by decide
example : splitext "my.talk_20250101_120000" = ("my", ".talk_20250101_120000") := by
  decide

/-! ### `get_unique_filename` -/

/-- Candidate number `k` probed by `get_unique_filename`: candidate 0 is
`name + extension`, candidate `k ≥ 1` is `name_k + extension` (Python
`f"{name}_{counter}{extension}"`). -/
def uniqueCand (name extension : String) : Nat → String
  | 0 => name ++ extension
  | k + 1 => name ++ "_" ++ natDec (k + 1) ++ extension

/-- The probing of `get_unique_filename` (initial candidate plus the
`while os.path.exists(...)` loop), with the target folder's contents as the
list of existing filenames.  The fuel only bounds the iteration count;
`folder.length + 1` probes always reach a free name (`uniqueLoop_spec`). -/
def uniqueLoop (name extension : String) (folder : List String) :
    Nat → Nat → String
  | 0, counter => uniqueCand name extension counter
  | fuel + 1, counter =>
    if uniqueCand name extension counter ∈ folder then
      uniqueLoop name extension folder fuel (counter + 1)
    else uniqueCand name extension counter

/-- Embeds `get_unique_filename(base_name, extension, folder)`: the extension part
of `base_name` is split off and discarded, then `name + extension`,
`name_1 + extension`, `name_2 + extension`, … are probed in order until a
name not present in the folder is found. -/
def get_unique_filename (base_name extension : String)
    (folder : List String) : String :=
  uniqueLoop (splitext base_name).1 extension folder (folder.length + 1) 0

example : get_unique_filename "a" ".mp4" [] = "a.mp4" := by decide
example : get_unique_filename "a" ".mp4" ["a.mp4"] = "a_1.mp4" := by decide
example : get_unique_filename "a" ".mp4" ["a.mp4", "a_1.mp4"] = "a_2.mp4" := by
  decide

theorem uniqueCand_inj (name ext : String) :
    Function.Injective (uniqueCand name ext) := by
  have hlen : ∀ k : Nat,
      (uniqueCand name ext (k + 1)).length
        = name.length + 1 + (natDec (k + 1)).length + ext.length := by
    intro k
    have h1 : ("_" : String).length = 1 := rfl
    simp [uniqueCand, String.length_append, h1]
  intro j k h
  match j, k with
  | 0, 0 => rfl
  | 0, k + 1 =>
    exfalso
    have h0 : (uniqueCand name ext 0).length = name.length + ext.length := by
      simp [uniqueCand, String.length_append]
    have h2 := hlen k
    rw [h] at h0
    have h3 : 1 ≤ (natDec (k + 1)).length := by
      have := natDecAux_ne_nil (k + 1) (k + 1)
      have : (natDecAux (k + 1 + 1) (k + 1)).length ≠ 0 := by
        intro hz; exact this (List.length_eq_zero.mp hz)
      simpa [natDec, String.length] using Nat.one_le_iff_ne_zero.mpr this
    omega
  | j + 1, 0 =>
    exfalso
    have h0 : (uniqueCand name ext 0).length = name.length + ext.length := by
      simp [uniqueCand, String.length_append]
    have h2 := hlen j
    rw [← h] at h0
    have h3 : 1 ≤ (natDec (j + 1)).length := by
      have := natDecAux_ne_nil (j + 1) (j + 1)
      have : (natDecAux (j + 1 + 1) (j + 1)).length ≠ 0 := by
        intro hz; exact this (List.length_eq_zero.mp hz)
      simpa [natDec, String.length] using Nat.one_le_iff_ne_zero.mpr this
    omega
  | j + 1, k + 1 =>
    have hdata := congrArg String.data h
    simp only [uniqueCand, String.data_append, List.append_assoc] at hdata
    have h1 := List.append_cancel_left hdata
    have h2 := List.append_cancel_left h1
    have h3 := List.append_cancel_right h2
    have := natDec_inj (j + 1) (k + 1) (String.ext h3)
    omega

/-- Pigeonhole: among any `folder.length + 1` consecutive candidates, at
least one is not already in the folder. -/
theorem exists_free_cand (name ext : String) (folder : List String)
    (c : Nat) :
    ∃ k, c ≤ k ∧ k < c + (folder.length + 1)
      ∧ uniqueCand name ext k ∉ folder := by
  by_contra hcon
  push_neg at hcon
  have hinj : Function.Injective (fun i : Nat => uniqueCand name ext (c + i)) :=
    fun a b hab => by
      have := uniqueCand_inj name ext hab
      omega
  have hsub : (Finset.range (folder.length + 1)).image
      (fun i => uniqueCand name ext (c + i)) ⊆ folder.toFinset := by
    intro x hx
    rw [Finset.mem_image] at hx
    obtain ⟨i, hi, rfl⟩ := hx
    rw [Finset.mem_range] at hi
    rw [List.mem_toFinset]
    exact hcon (c + i) (by omega) (by omega)
  have hcard := Finset.card_le_card hsub
  rw [Finset.card_image_of_injective _ hinj, Finset.card_range] at hcard
  have := folder.toFinset_card_le
  omega

/-- The probing loop returns the first free candidate, provided a free one
is within fuel reach. -/
theorem uniqueLoop_spec (name ext : String) (folder : List String) :
    ∀ (fuel c : Nat),
      (∃ k, c ≤ k ∧ k < c + fuel ∧ uniqueCand name ext k ∉ folder) →
      ∃ k, c ≤ k
        ∧ uniqueLoop name ext folder fuel c = uniqueCand name ext k
        ∧ uniqueCand name ext k ∉ folder
        ∧ ∀ j, c ≤ j → j < k → uniqueCand name ext j ∈ folder := by
  intro fuel
  induction fuel with
  | zero =>
    intro c ⟨k, hk₁, hk₂, _⟩
    omega
  | succ f ih =>
    intro c hex
    by_cases hc : uniqueCand name ext c ∈ folder
    · have hex' : ∃ k, c + 1 ≤ k ∧ k < c + 1 + f
          ∧ uniqueCand name ext k ∉ folder := by
        obtain ⟨k, hk₁, hk₂, hk₃⟩ := hex
        refine ⟨k, ?_, by omega, hk₃⟩
        rcases Nat.eq_or_lt_of_le hk₁ with rfl | h
        · exact absurd hc hk₃
        · omega
      obtain ⟨k, hk₁, hk₂, hk₃, hk₄⟩ := ih (c + 1) hex'
      refine ⟨k, by omega, ?_, hk₃, ?_⟩
      · show uniqueLoop name ext folder (f + 1) c = _
        rw [uniqueLoop, if_pos hc]
        exact hk₂
      · intro j hj₁ hj₂
        rcases Nat.eq_or_lt_of_le hj₁ with rfl | h
        · exact hc
        · exact hk₄ j h hj₂
    · refine ⟨c, le_refl c, ?_, hc, fun j hj₁ hj₂ => absurd hj₂ (by omega)⟩
      show uniqueLoop name ext folder (f + 1) c = _
      rw [uniqueLoop, if_neg hc]

/-- C1: for every base name, extension and folder state,
`get_unique_filename` returns the first candidate in the order
`base`, `base_1`, `base_2`, … (the base stripped of its extension part, as
the code's `splitext` does) whose name is not already present in the target
folder; in particular the returned filename never collides with an existing
file in that folder at the time of the check. -/
theorem C1_get_unique_filename_first_free (base_name extension : String)
    (folder : List String) :
    (∃ k, get_unique_filename base_name extension folder
        = uniqueCand (splitext base_name).1 extension k
      ∧ uniqueCand (splitext base_name).1 extension k ∉ folder
      ∧ ∀ j, j < k → uniqueCand (splitext base_name).1 extension j ∈ folder)
    ∧ get_unique_filename base_name extension folder ∉ folder := by
  obtain ⟨k, hk₀, hk₁, hk₂, hk₃⟩ :=
    uniqueLoop_spec (splitext base_name).1 extension folder
      (folder.length + 1) 0
      (exists_free_cand (splitext base_name).1 extension folder 0)
  refine ⟨⟨k, hk₁, hk₂, fun j hj => hk₃ j (Nat.zero_le j) hj⟩, ?_⟩
  rw [get_unique_filename, hk₁]
  exact hk₂

/-- Witness for C1 at a concrete folder state. -/
theorem C1_get_unique_filename_first_free_witness :
    get_unique_filename "a" ".mp4" ["a.mp4"] ∉ (["a.mp4"] : List String)
      ∧ get_unique_filename "a" ".mp4" ["a.mp4"] = "a_1.mp4" :=
  ⟨(C1_get_unique_filename_first_free "a" ".mp4" ["a.mp4"]).2, by decide⟩

/-! ### `transcribe_audio`

The Vosk recognizer is an opaque collaborator: `accept` models one
`AcceptWaveform` call (returning the new recognizer state and, when
`AcceptWaveform` returned true, the parsed `rec.Result()`), `final` models
the parsed `rec.FinalResult()`.  A `.error` outcome models an engine
exception, which the code's `try`/`except` turns into the generic
`Transcription failed` wrapper. -/

/-- A parsed recognizer result dict; only its `text` field (possibly
absent) matters to the code. -/
structure RecResult where
  text : Option String
deriving DecidableEq

/-- Python exception values the code distinguishes: `ValueError` raised
directly versus the plain `Exception` produced by the
`Transcription failed` wrapper. -/
inductive PyError where
  | valueError (msg : String)
  | exception (msg : String)
deriving DecidableEq

/-- Evaluates `str(e)` on either exception kind. -/
def PyError.msg : PyError → String
  | .valueError m => m
  | .exception m => m

/-- The fields of the opened WAV file that `transcribe_audio` inspects,
plus its frame content (frames of abstract type `φ`). -/
structure WavFile (φ : Type) where
  nchannels : Nat
  sampwidth : Nat
  comptype : String
  frames : List φ

/-- Models the `wf.readframes(4000)` chunking: successive groups of (at most) 4000
frames; the read returning zero frames ends the loop.  The fuel is a
structural-recursion device; `frames.length` iterations always suffice
since every iteration consumes at least one frame. -/
def readChunksAux {α : Type} : Nat → List α → List (List α)
  | 0, _ => []
  | _ + 1, [] => []
  | fuel + 1, f :: fs => (f :: fs).take 4000 :: readChunksAux fuel ((f :: fs).drop 4000)

/-- The chunks read by the `while True` loop of `transcribe_audio`. -/
def readChunks {α : Type} (frames : List α) : List (List α) :=
  readChunksAux frames.length frames

/-- The `while True` loop body: each chunk is fed to `AcceptWaveform`;
when it returns true the parsed partial result is appended to `results`;
an engine exception propagates out of the loop. -/
def recLoop {σ χ : Type}
    (accept : σ → χ → Except String (σ × Option RecResult)) :
    σ → List RecResult → List χ → Except String (σ × List RecResult)
  | s, results, [] => .ok (s, results)
  | s, results, c :: cs =>
    match accept s c with
    | .error e => .error e
    | .ok (s', some r) => recLoop accept s' (results ++ [r]) cs
    | .ok (s', none) => recLoop accept s' results cs

/-- Python's `str.strip()`: removes leading and trailing whitespace. -/
def pyStrip (s : String) : String :=
  ⟨((s.data.dropWhile Char.isWhitespace).reverse.dropWhile
      Char.isWhitespace).reverse⟩

example : pyStrip "  a b  " = "a b" := by decide

/-- Line 65 of `app.py`:
`" ".join([result['text'] for result in results if 'text' in result]).strip()`.
Results without a `text` field are filtered out of the join. -/
def joinResults (results : List RecResult) : String :=
  pyStrip (String.intercalate " " (results.filterMap RecResult.text))

/-- Embeds `transcribe_audio`, shallowly.  `modelExists` is
`os.path.exists(app.config['VOSK_MODEL_PATH'])`; `wavOpen` the outcome of
`wave.open(audio_path, "rb")`; `s₀` the fresh `KaldiRecognizer` state.
Any exception inside the `try` block is re-raised as
`Exception(f"Transcription failed: {str(e)}")`. -/
def transcribe_audio {σ φ : Type} (modelExists : Bool) (modelPath : String)
    (accept : σ → List φ → Except String (σ × Option RecResult))
    (final : σ → Except String RecResult) (s₀ : σ)
    (wavOpen : Except String (WavFile φ)) : Except PyError String :=
  if modelExists = false then
    .error (.valueError ("Could not find Vosk model at " ++ modelPath))
  else
    let body : Except String String :=
      match wavOpen with
      | .error e => .error e
      | .ok wf =>
        if wf.nchannels ≠ 1 ∨ wf.sampwidth ≠ 2 ∨ wf.comptype ≠ "NONE" then
          .error "Audio file must be WAV format mono PCM"
        else
          match recLoop accept s₀ [] (readChunks wf.frames) with
          | .error e => .error e
          | .ok (s, results) =>
            match final s with
            | .error e => .error e
            | .ok fr => .ok (joinResults (results ++ [fr]))
    match body with
    | .ok t => .ok t
    | .error m => .error (.exception ("Transcription failed: " ++ m))

/-- The same function with the join as the specification words it: every
partial/final result contributes its `text` field, a result missing the
field contributing the empty string.  Comparison definition written from
the spec's words, not from the code. -/
def joinResultsSpecWorded (results : List RecResult) : String :=
  pyStrip (String.intercalate " " (results.map (fun r => r.text.getD "")))

/-- Variant of `transcribe_audio` as the specification words it (differing from the
code only in the treatment of results missing the `text` field).
Comparison definition written from the spec's words. -/
def transcribe_audio_specWorded {σ φ : Type} (modelExists : Bool) (modelPath : String)
    (accept : σ → List φ → Except String (σ × Option RecResult))
    (final : σ → Except String RecResult) (s₀ : σ)
    (wavOpen : Except String (WavFile φ)) : Except PyError String :=
  if modelExists = false then
    .error (.valueError ("Could not find Vosk model at " ++ modelPath))
  else
    let body : Except String String :=
      match wavOpen with
      | .error e => .error e
      | .ok wf =>
        if wf.nchannels ≠ 1 ∨ wf.sampwidth ≠ 2 ∨ wf.comptype ≠ "NONE" then
          .error "Audio file must be WAV format mono PCM"
        else
          match recLoop accept s₀ [] (readChunks wf.frames) with
          | .error e => .error e
          | .ok (s, results) =>
            match final s with
            | .error e => .error e
            | .ok fr => .ok (joinResultsSpecWorded (results ++ [fr]))
    match body with
    | .ok t => .ok t
    | .error m => .error (.exception ("Transcription failed: " ++ m))

/-- Recognizer states threaded through a chunk list by a total step. -/
def pureStates {σ χ : Type} (step : σ → χ → σ × Option RecResult)
    (s : σ) (cs : List χ) : σ :=
  cs.foldl (fun s c => (step s c).1) s

/-- Partial results collected over a chunk list by a total step, in chunk
order. -/
def pureResults {σ χ : Type} (step : σ → χ → σ × Option RecResult) :
    σ → List χ → List RecResult
  | _, [] => []
  | s, c :: cs =>
    match (step s c).2 with
    | some r => r :: pureResults step (step s c).1 cs
    | none => pureResults step (step s c).1 cs

theorem recLoop_ok {σ χ : Type} (step : σ → χ → σ × Option RecResult) :
    ∀ (cs : List χ) (s : σ) (acc : List RecResult),
      recLoop (fun s c => .ok (step s c)) s acc cs
        = .ok (pureStates step s cs, acc ++ pureResults step s cs) := by
  intro cs
  induction cs with
  | nil => intro s acc; simp [recLoop, pureStates, pureResults]
  | cons c cs ih =>
    intro s acc
    rcases hs : step s c with ⟨s', r?⟩
    cases r? with
    | some r =>
      simp only [recLoop, hs, pureStates, pureResults, List.foldl_cons, ih]
      simp
    | none =>
      simp only [recLoop, hs, pureStates, pureResults, List.foldl_cons, ih]

/-- Shared characterization: with the model present and an exception-free
recognizer, `transcribe_audio` on a well-formed WAV returns the join (as
the code computes it) of the partial results collected over the 4000-frame
chunks, in order, plus the single final result. -/
theorem transcribe_ok_char {σ φ : Type} (mp : String)
    (step : σ → List φ → σ × Option RecResult) (finR : σ → RecResult)
    (s₀ : σ) (wf : WavFile φ)
    (h1 : wf.nchannels = 1) (h2 : wf.sampwidth = 2)
    (h3 : wf.comptype = "NONE") :
    transcribe_audio true mp (fun s c => .ok (step s c))
        (fun s => .ok (finR s)) s₀ (.ok wf)
      = .ok (joinResults (pureResults step s₀ (readChunks wf.frames)
          ++ [finR (pureStates step s₀ (readChunks wf.frames))])) := by
  rw [transcribe_audio, if_neg (by decide)]
  simp only [h1, h2, h3]
  rw [recLoop_ok]
  simp

/-- Same characterization for the spec-worded variant. -/
theorem transcribe_specWorded_ok_char {σ φ : Type} (mp : String)
    (step : σ → List φ → σ × Option RecResult) (finR : σ → RecResult)
    (s₀ : σ) (wf : WavFile φ)
    (h1 : wf.nchannels = 1) (h2 : wf.sampwidth = 2)
    (h3 : wf.comptype = "NONE") :
    transcribe_audio_specWorded true mp (fun s c => .ok (step s c))
        (fun s => .ok (finR s)) s₀ (.ok wf)
      = .ok (joinResultsSpecWorded (pureResults step s₀ (readChunks wf.frames)
          ++ [finR (pureStates step s₀ (readChunks wf.frames))])) := by
  rw [transcribe_audio_specWorded, if_neg (by decide)]
  simp only [h1, h2, h3]
  rw [recLoop_ok]
  simp

theorem readChunksAux_cons {α : Type} (fuel : Nat) (f : α) (fs : List α) :
    readChunksAux (fuel + 1) (f :: fs)
      = (f :: fs).take 4000 :: readChunksAux fuel ((f :: fs).drop 4000) := rfl

theorem readChunksAux_nil {α : Type} (fuel : Nat) :
    readChunksAux (fuel + 1) ([] : List α) = [] := rfl

/-- 4001 frames are read as one full 4000-frame chunk plus one 1-frame
chunk. -/
theorem readChunks_replicate_4001 {α : Type} (x : α) :
    readChunks (List.replicate 4001 x) = [List.replicate 4000 x, [x]] := by
  rw [readChunks, List.length_replicate]
  rw [show (4001 : Nat) = 4000 + 1 from rfl, List.replicate_succ,
    readChunksAux_cons, ← List.replicate_succ]
  rw [List.take_replicate, List.drop_replicate]
  norm_num
  show readChunksAux (3999 + 1) [x] = [[x]]
  rw [readChunksAux_cons]
  simp [readChunksAux_nil]

/-- C2 (amended): for every WAV input satisfying the format precondition,
with the model present and the recognizer raising no exception,
`transcribe_audio` reads the audio in 4000-frame chunks until a read
returns zero frames, feeds each chunk to the recognizer collecting the
partial results in chunk order, requests one final result after input is
exhausted, and returns the space-joined concatenation of the `text` fields
of those results — a result missing the `text` field being omitted from
the join entirely (not contributing an empty string) — trimmed of leading
and trailing whitespace. -/
theorem C2_transcribe_chunked_join {σ φ : Type} (mp : String)
    (step : σ → List φ → σ × Option RecResult) (finR : σ → RecResult)
    (s₀ : σ) (wf : WavFile φ)
    (h1 : wf.nchannels = 1) (h2 : wf.sampwidth = 2)
    (h3 : wf.comptype = "NONE") :
    transcribe_audio true mp (fun s c => .ok (step s c))
        (fun s => .ok (finR s)) s₀ (.ok wf)
      = .ok (pyStrip (String.intercalate " "
          ((pureResults step s₀ (readChunks wf.frames)
              ++ [finR (pureStates step s₀ (readChunks wf.frames))]).filterMap
            RecResult.text))) :=
  transcribe_ok_char mp step finR s₀ wf h1 h2 h3

/-- Witness for C2 (amended) at a concrete zero-chunk input. -/
theorem C2_transcribe_chunked_join_witness :
    (WavFile.mk 1 2 "NONE" ([] : List Unit)).nchannels = 1
      ∧ transcribe_audio true "models/vosk-model-small-en-us-0.15"
          (fun (s : Unit) (_ : List Unit) => .ok (s, some ⟨some "x"⟩))
          (fun _ => .ok ⟨some " y "⟩) ()
          (.ok (WavFile.mk 1 2 "NONE" ([] : List Unit)))
        = .ok "y" :=
  ⟨rfl, by
    have := C2_transcribe_chunked_join "models/vosk-model-small-en-us-0.15"
      (fun (s : Unit) (_ : List Unit) => (s, some ⟨some "x"⟩))
      (fun _ => (⟨some " y "⟩ : RecResult)) ()
      (WavFile.mk 1 2 "NONE" ([] : List Unit)) rfl rfl rfl
    rw [this]
    exact congrArg Except.ok (by decide)⟩

/-- The input refuting C2 as literally stated: 4001 frames, hence two
chunks; the second partial result carries no `text` field. -/
def c2Step (s : Nat) (_ : List Unit) : Nat × Option RecResult :=
  (s + 1, some ⟨if s = 0 then some "a" else none⟩)

/-- The WAV input of the C2 counterexample. -/
def c2Wav : WavFile Unit :=
  ⟨1, 2, "NONE", List.replicate 4001 ()⟩

/-- C2 fails as stated: on `c2Wav` the code returns `"a b"` (the result
missing the `text` field is filtered out of the join), while the spec's
words (a missing field contributes the empty string) give `"a  b"` with a
double space. -/
theorem C2_counterexample :
    transcribe_audio true "models/vosk-model-small-en-us-0.15"
        (fun s c => .ok (c2Step s c)) (fun _ => .ok ⟨some "b"⟩) 0 (.ok c2Wav)
      = .ok "a b"
    ∧ transcribe_audio_specWorded true "models/vosk-model-small-en-us-0.15"
        (fun s c => .ok (c2Step s c)) (fun _ => .ok ⟨some "b"⟩) 0 (.ok c2Wav)
      = .ok "a  b"
    ∧ ("a b" : String) ≠ "a  b" := by
  have hchunks : readChunks c2Wav.frames = [List.replicate 4000 (), [()]] :=
    readChunks_replicate_4001 ()
  have hres : pureResults c2Step 0 (readChunks c2Wav.frames)
      = [⟨some "a"⟩, ⟨none⟩] := by
    rw [hchunks]
    simp [pureResults, c2Step]
  have hcode := transcribe_ok_char "models/vosk-model-small-en-us-0.15"
    c2Step (fun _ => (⟨some "b"⟩ : RecResult)) 0 c2Wav rfl rfl rfl
  have hspec := transcribe_specWorded_ok_char
    "models/vosk-model-small-en-us-0.15"
    c2Step (fun _ => (⟨some "b"⟩ : RecResult)) 0 c2Wav rfl rfl rfl
  rw [hres] at hcode hspec
  refine ⟨hcode.trans ?_, hspec.trans ?_, by decide⟩
  · exact congrArg Except.ok (by decide)
  · exact congrArg Except.ok (by decide)

/-- C6 (amended): a readable WAV violating the format precondition
(channel count not 1, or sample width not 2 bytes, or compressed rather
than PCM) makes `transcribe_audio` raise
`ValueError("Audio file must be WAV format mono PCM")` inside the `try`
block, which the `except` clause catches and re-raises as the same generic
`Exception("Transcription failed: ...")` wrapper used for engine failures
— so the failure is reported, but not through an error class distinct from
the transcription-failure wrapper. -/
theorem C6_format_error_wrapped {σ φ : Type} (mp : String)
    (accept : σ → List φ → Except String (σ × Option RecResult))
    (final : σ → Except String RecResult) (s₀ : σ) (wf : WavFile φ)
    (h : ¬(wf.nchannels = 1 ∧ wf.sampwidth = 2 ∧ wf.comptype = "NONE")) :
    transcribe_audio true mp accept final s₀ (.ok wf)
      = .error (.exception
          ("Transcription failed: " ++ "Audio file must be WAV format mono PCM")) := by
  have hcond : wf.nchannels ≠ 1 ∨ wf.sampwidth ≠ 2 ∨ wf.comptype ≠ "NONE" := by
    tauto
  rw [transcribe_audio, if_neg (by decide)]
  simp only [if_pos hcond]

/-- Witness for C6 (amended) at a concrete stereo WAV. -/
theorem C6_format_error_wrapped_witness :
    ¬((WavFile.mk 2 2 "NONE" ([] : List Unit)).nchannels = 1
        ∧ (WavFile.mk 2 2 "NONE" ([] : List Unit)).sampwidth = 2
        ∧ (WavFile.mk 2 2 "NONE" ([] : List Unit)).comptype = "NONE")
      ∧ transcribe_audio true "models/vosk-model-small-en-us-0.15"
          (fun (s : Unit) (_ : List Unit) => .ok (s, none))
          (fun _ => .ok ⟨some "ok"⟩) ()
          (.ok (WavFile.mk 2 2 "NONE" []))
        = .error (.exception
            ("Transcription failed: " ++ "Audio file must be WAV format mono PCM")) :=
  ⟨by decide,
    C6_format_error_wrapped "models/vosk-model-small-en-us-0.15"
      (fun (s : Unit) (_ : List Unit) => .ok (s, none))
      (fun _ => .ok ⟨some "ok"⟩) () (WavFile.mk 2 2 "NONE" []) (by decide)⟩

/-- C6 fails as stated: a stereo (2-channel) WAV with a healthy recognizer
and a mono WAV whose engine fails produce the very same exception value,
so the format failure is not distinct from the wrapped engine failure. -/
theorem C6_counterexample :
    transcribe_audio true "models/vosk-model-small-en-us-0.15"
        (fun (s : Unit) (_ : List Unit) => .ok (s, none))
        (fun _ => .ok ⟨some "ok"⟩) ()
        (.ok (WavFile.mk 2 2 "NONE" []))
      = .error (.exception
          "Transcription failed: Audio file must be WAV format mono PCM")
    ∧ transcribe_audio true "models/vosk-model-small-en-us-0.15"
        (fun (s : Unit) (_ : List Unit) => .ok (s, none))
        (fun _ => .error "Audio file must be WAV format mono PCM") ()
        (.ok (WavFile.mk 1 2 "NONE" []))
      = .error (.exception
          "Transcription failed: Audio file must be WAV format mono PCM") := by
  constructor
  · rfl
  · rfl

/-! ### Configuration constants (`app.config`) -/

def UPLOAD_FOLDER : String := "uploads"

/-- Embeds `os.path.join` for the simple relative paths the app builds. -/
def osJoin (a b : String) : String := a ++ "/" ++ b

def VIDEOS_FOLDER : String := osJoin UPLOAD_FOLDER "videos"

def AUDIO_FOLDER : String := osJoin UPLOAD_FOLDER "audio"

def TRANSCRIPTIONS_FOLDER : String := osJoin UPLOAD_FOLDER "transcriptions"

def MASTER_TRANSCRIPT : String := osJoin UPLOAD_FOLDER "master_transcript.txt"

def ALLOWED_EXTENSIONS : List String := ["mp4", "avi", "mov", "mkv", "mp3", "wav"]

/-! ### `allowed_file` -/

/-- Python's `str.lower()` (character-wise lowering). -/
def lowerStr (s : String) : String := ⟨s.data.map Char.toLower⟩

/-- Evaluates `filename.rsplit('.', 1)[1]`: the part after the last dot (only ever
evaluated when a dot is present). -/
def extAfterLastDot (s : String) : String :=
  match rfindIdx (fun c => c == '.') s.data with
  | none => s
  | some i => ⟨s.data.drop (i + 1)⟩

example : extAfterLastDot "video.AVI" = "AVI" := by decide
example : extAfterLastDot "a.b.mov" = "mov" := by decide

/-- Embeds `allowed_file`: a dot occurs in the filename and the lowercased part
after the last dot is one of the allowed extensions. -/
def allowed_file (filename : String) : Bool :=
  filename.data.contains '.'
    && ALLOWED_EXTENSIONS.contains (lowerStr (extAfterLastDot filename))

example : allowed_file "v.mp4" = true := by decide
example : allowed_file "v.AVI" = true := by decide
example : allowed_file "v.txt" = false := by decide
example : allowed_file "noext" = false := by decide

/-! ### `save_to_master_transcript` -/

/-- The entry appended for one transcription: a blank-line separator, a
header line `--- {filename} ({timestamp}) ---`, then the transcription
text (`f"\n\n--- {filename} ({timestamp}) ---\n{transcription}"`). -/
def masterEntry (filename timestamp transcription : String) : String :=
  "\n\n--- " ++ filename ++ " (" ++ timestamp ++ ") ---\n" ++ transcription

/-- Embeds `save_to_master_transcript`: the master file is opened in append mode
(`'a'`) and the entry written at the end; the master file's current
content is the state, the timestamp (`"%Y-%m-%d %H:%M:%S"`, second
resolution) a parameter. -/
def save_to_master_transcript (filename transcription timestamp
    master : String) : String :=
  master ++ masterEntry filename timestamp transcription

/-! ### The HTTP handlers -/

/-- The success payload of `POST /api/extract-audio`. -/
structure SuccessPayload where
  video_url : String
  audio_url : String
  transcription_url : String
  master_transcript_url : String
  transcription_preview : String
  video_filename : String
  audio_filename : String
  transcription_filename : String
deriving DecidableEq

/-- A handler response: a JSON error body with an HTTP status code, a
served file, or the success JSON of `extract_audio`. -/
inductive Resp where
  | errJson (code : Nat) (error : String) (details : Option String)
  | file (path : String)
  | ok (payload : SuccessPayload)
deriving DecidableEq

/-- One filesystem write performed while handling a request. -/
inductive FsWrite where
  | saveVideo (path : String)
  | writeAudio (path : String)
  | writeTranscription (path : String) (content : String)
  | appendMaster (entry : String)
deriving DecidableEq

/-- The request-dependent inputs of `extract_audio` together with the
outcomes of its external collaborators. -/
structure ExtractEnv where
  /-- Flag for `'file' in request.files` -/
  hasFilePart : Bool
  /-- Value of `file.filename` -/
  filename : String
  /-- Value of `request.form.get('name', '')` -/
  formName : String
  /-- werkzeug's `secure_filename`, opaque sanitizer -/
  secure : String → String
  /-- Value of `datetime.now().strftime("%Y%m%d_%H%M%S")` at upload time -/
  timestamp : String
  /-- the timestamp taken inside `save_to_master_transcript` -/
  masterTimestamp : String
  /-- filenames currently in `VIDEOS_FOLDER` -/
  videos : List String
  /-- filenames currently in `AUDIO_FOLDER` -/
  audio : List String
  /-- filenames currently in `TRANSCRIPTIONS_FOLDER` -/
  transcriptions : List String
  /-- outcome of `convert_to_wav` (ffmpeg), error diagnostic on failure -/
  ffmpeg : Except String Unit
  /-- outcome of `transcribe_audio` on the produced WAV -/
  transcription : Except PyError String

/-- Embeds `POST /api/extract-audio`, returning the response and the list of
filesystem writes performed, in order. -/
def extract_audio (env : ExtractEnv) : Resp × List FsWrite :=
  if env.hasFilePart = false then
    (.errJson 400 "No file uploaded" none, [])
  else if env.filename = "" then
    (.errJson 400 "No file selected" none, [])
  else if allowed_file env.filename = false then
    (.errJson 400 "Invalid file type" none, [])
  else
    let custom0 := pyStrip env.formName
    let custom_name :=
      if custom0 = "" then (splitext (env.secure env.filename)).1 else custom0
    let base_name := custom_name ++ "_" ++ env.timestamp
    let video_filename := get_unique_filename base_name ".mp4" env.videos
    let audio_filename := get_unique_filename base_name ".wav" env.audio
    let transcription_filename :=
      get_unique_filename base_name ".txt" env.transcriptions
    let video_path := osJoin VIDEOS_FOLDER video_filename
    let audio_path := osJoin AUDIO_FOLDER audio_filename
    let transcription_path := osJoin TRANSCRIPTIONS_FOLDER transcription_filename
    match env.ffmpeg with
    | .error e =>
      (.errJson 500 "FFmpeg processing failed" (some e), [.saveVideo video_path])
    | .ok _ =>
      match env.transcription with
      | .error e =>
        (.errJson 500 "Server error" (some e.msg),
         [.saveVideo video_path, .writeAudio audio_path])
      | .ok transcription =>
        (.ok {
          video_url := "/api/videos/" ++ video_filename
          audio_url := "/api/download/" ++ audio_filename
          transcription_url :=
            "/api/download-transcription/" ++ transcription_filename
          master_transcript_url := "/api/download-master-transcript"
          transcription_preview :=
            if transcription.length > 200 then transcription.take 200 ++ "..."
            else transcription
          video_filename := video_filename
          audio_filename := audio_filename
          transcription_filename := transcription_filename },
         [.saveVideo video_path, .writeAudio audio_path,
          .writeTranscription transcription_path transcription,
          .appendMaster
            (masterEntry video_filename env.masterTimestamp transcription)])

/-- Embeds `GET /api/download-master-transcript`: 404 when the master file does
not exist, otherwise the file as attachment. -/
def download_master_transcript (masterExists : Bool) : Resp :=
  if masterExists = false then .errJson 404 "Master transcript not found" none
  else .file MASTER_TRANSCRIPT

/-- Embeds `GET /api/download-transcription/<filename>`: `send_file` raises
`FileNotFoundError` for a missing file, which the handler's `except`
clause converts to a 404 JSON body.  The transcriptions folder's contents
is the state. -/
def download_transcription (transcriptions : List String)
    (filename : String) : Resp :=
  if transcriptions.contains filename then
    .file (osJoin TRANSCRIPTIONS_FOLDER filename)
  else .errJson 404 "Transcription file not found" none

/-- The route patterns registered by the `@app.route` decorators of
`app.py` — these three and no others. -/
def routes : List (String × String) :=
  [("POST", "/api/extract-audio"),
   ("GET", "/api/download-master-transcript"),
   ("GET", "/api/download-transcription/<filename>")]

/-- Whether a route pattern matches a request path: a literal pattern
matches itself; a pattern ending in `<filename>` matches its literal part
followed by one nonempty path segment containing no `/`. -/
def matchesPattern (pattern url : String) : Bool :=
  let pat := pattern.data
  let u := url.data
  let ph := ("<filename>" : String).data
  if pat.length ≥ ph.length && pat.drop (pat.length - ph.length) == ph then
    let lit := pat.take (pat.length - ph.length)
    u.take lit.length == lit && !(u.drop lit.length).isEmpty
      && (u.drop lit.length).contains '/' == false
  else pat == u

/-- Flask dispatch: the first registered route matching the request, or
`none` (the framework then answers 404 without entering any handler). -/
def routeFor (method url : String) : Option (String × String) :=
  routes.find? (fun r => r.1 == method && matchesPattern r.2 url)

example : routeFor "POST" "/api/extract-audio"
    = some ("POST", "/api/extract-audio") := by decide
example : (routeFor "GET" "/api/download-transcription/x.txt").isSome = true := by
  decide

/-! ### Shared lemmas about the handler -/

theorem allowed_file_iff (f : String) :
    allowed_file f = true
      ↔ (f.data.contains '.' = true
          ∧ lowerStr (extAfterLastDot f) ∈ ALLOWED_EXTENSIONS) := by
  simp [allowed_file]

theorem get_unique_filename_is_cand (b e : String) (folder : List String) :
    ∃ k, get_unique_filename b e folder = uniqueCand (splitext b).1 e k := by
  obtain ⟨k, _, hk, _, _⟩ :=
    uniqueLoop_spec (splitext b).1 e folder (folder.length + 1) 0
      (exists_free_cand (splitext b).1 e folder 0)
  exact ⟨k, hk⟩

theorem uniqueCand_ends (name ext : String) (k : Nat) :
    ∃ p, uniqueCand name ext k = p ++ ext := by
  cases k with
  | zero => exact ⟨name, rfl⟩
  | succ j => exact ⟨name ++ "_" ++ natDec (j + 1), rfl⟩

theorem get_unique_filename_ends (b e : String) (folder : List String) :
    ∃ p, get_unique_filename b e folder = p ++ e := by
  obtain ⟨k, hk⟩ := get_unique_filename_is_cand b e folder
  obtain ⟨p, hp⟩ := uniqueCand_ends (splitext b).1 e k
  exact ⟨p, hk.trans hp⟩

/-! ### C7: the master transcript log -/

/-- C7: each successful transcription appends exactly one entry to the
master transcript — a blank-line separator, a header line containing the
source filename and the second-resolution timestamp, then the
transcription text — leaving all earlier content unchanged (the entry is
appended after the previous content); two successive calls leave the two
entries in call order, each containing its source filename. -/
theorem C7_master_transcript_append (f₁ t₁ tr₁ f₂ t₂ tr₂ master : String) :
    save_to_master_transcript f₁ tr₁ t₁ master
        = master ++ ("\n\n--- " ++ f₁ ++ " (" ++ t₁ ++ ") ---\n" ++ tr₁)
    ∧ save_to_master_transcript f₂ tr₂ t₂
        (save_to_master_transcript f₁ tr₁ t₁ master)
        = master ++ ("\n\n--- " ++ f₁ ++ " (" ++ t₁ ++ ") ---\n" ++ tr₁)
          ++ ("\n\n--- " ++ f₂ ++ " (" ++ t₂ ++ ") ---\n" ++ tr₂) :=
  ⟨rfl, rfl⟩

/-! ### C9: downloads of never-written filenames -/

/-- C9: a download request for a filename never written yields a 404 JSON
not-found error, never a 500 server error: `download-transcription` for an
absent filename answers 404, as does `download-master-transcript` when the
master file does not exist. -/
theorem C9_download_not_found (transcriptions : List String)
    (filename : String) (h : filename ∉ transcriptions) :
    download_transcription transcriptions filename
        = .errJson 404 "Transcription file not found" none
    ∧ download_master_transcript false
        = .errJson 404 "Master transcript not found" none := by
  have hb : transcriptions.contains filename = false := by simpa using h
  constructor
  · rw [download_transcription, hb]
    simp
  · rfl

/-- Witness for C9 at a concrete folder state. -/
theorem C9_download_not_found_witness :
    ("ghost.txt" ∉ (["real.txt"] : List String))
    ∧ download_transcription ["real.txt"] "ghost.txt"
        = .errJson 404 "Transcription file not found" none :=
  ⟨by decide, (C9_download_not_found ["real.txt"] "ghost.txt" (by decide)).1⟩

/-! ### C5: validation of `POST /api/extract-audio` -/

/-- C5: the handler returns HTTP 400 with a JSON error body exactly when
the request has no file part, or the filename is empty, or it is not the
case that the filename contains a dot and its lowercased last-dot suffix
is one of mp4, avi, mov, mkv, mp3, wav; and in each of these cases no
filesystem write is performed. -/
theorem C5_validation_400 (env : ExtractEnv) :
    ((∃ msg, (extract_audio env).1 = .errJson 400 msg none)
      ↔ (env.hasFilePart = false ∨ env.filename = ""
          ∨ ¬(env.filename.data.contains '.' = true
              ∧ lowerStr (extAfterLastDot env.filename)
                  ∈ ["mp4", "avi", "mov", "mkv", "mp3", "wav"])))
    ∧ ((env.hasFilePart = false ∨ env.filename = ""
          ∨ ¬(env.filename.data.contains '.' = true
              ∧ lowerStr (extAfterLastDot env.filename)
                  ∈ ["mp4", "avi", "mov", "mkv", "mp3", "wav"]))
        → (extract_audio env).2 = []) := by
  have hext : ¬(env.filename.data.contains '.' = true
      ∧ lowerStr (extAfterLastDot env.filename)
          ∈ ["mp4", "avi", "mov", "mkv", "mp3", "wav"])
      ↔ allowed_file env.filename = false := by
    rw [show (["mp4", "avi", "mov", "mkv", "mp3", "wav"] : List String)
        = ALLOWED_EXTENSIONS from rfl]
    rw [← allowed_file_iff]
    exact ⟨fun h => by simpa using h, fun h => by simp [h]⟩
  by_cases h1 : env.hasFilePart = false
  · refine ⟨⟨fun _ => Or.inl h1, fun _ => ⟨"No file uploaded", ?_⟩⟩, fun _ => ?_⟩
    · simp [extract_audio, h1]
    · simp [extract_audio, h1]
  · by_cases h2 : env.filename = ""
    · refine ⟨⟨fun _ => Or.inr (Or.inl h2), fun _ => ⟨"No file selected", ?_⟩⟩,
        fun _ => ?_⟩
      · simp [extract_audio, h1, h2]
      · simp [extract_audio, h1, h2]
    · by_cases h3 : allowed_file env.filename = false
      · refine ⟨⟨fun _ => Or.inr (Or.inr (hext.mpr h3)),
          fun _ => ⟨"Invalid file type", ?_⟩⟩, fun _ => ?_⟩
        · simp [extract_audio, h1, h2, h3]
        · simp [extract_audio, h1, h2, h3]
      · have hresp : ∀ msg, (extract_audio env).1 ≠ .errJson 400 msg none := by
          intro msg
          cases hf : env.ffmpeg with
          | error e => simp [extract_audio, h1, h2, h3, hf]
          | ok u =>
            cases ht : env.transcription with
            | error e2 => simp [extract_audio, h1, h2, h3, hf, ht]
            | ok t => simp [extract_audio, h1, h2, h3, hf, ht]
        have hcond : ¬(env.hasFilePart = false ∨ env.filename = ""
            ∨ ¬(env.filename.data.contains '.' = true
                ∧ lowerStr (extAfterLastDot env.filename)
                    ∈ ["mp4", "avi", "mov", "mkv", "mp3", "wav"])) := by
          push_neg
          refine ⟨by simpa using h1, h2, ?_⟩
          have := hext
          tauto
        refine ⟨⟨fun ⟨msg, hmsg⟩ => absurd hmsg (hresp msg),
          fun hc => absurd hc hcond⟩, fun hc => absurd hc hcond⟩

/-- The concrete request of the C5 witness: no file part. -/
def c5Env : ExtractEnv :=
  { hasFilePart := false, filename := "", formName := "",
    secure := fun s => s, timestamp := "", masterTimestamp := "",
    videos := [], audio := [], transcriptions := [],
    ffmpeg := .ok (), transcription := .ok "" }

/-- Witness for C5 at a concrete request with no file part. -/
theorem C5_validation_400_witness :
    (∃ msg, (extract_audio c5Env).1 = .errJson 400 msg none)
      ∧ (extract_audio c5Env).2 = [] :=
  ⟨(C5_validation_400 c5Env).1.mpr (Or.inl rfl),
   (C5_validation_400 c5Env).2 (Or.inl rfl)⟩

/-! ### C3: the stored video's extension -/

/-- C3 (amended): for every request passing validation, the stored video
file is named from the (splitext-stripped) base — the sanitized
user-supplied or filename-derived name suffixed with the upload timestamp
and possibly a uniqueness counter — plus the fixed extension `.mp4`,
regardless of the uploaded file's original extension. -/
theorem C3_video_stored_as_mp4 (env : ExtractEnv)
    (h1 : env.hasFilePart = true) (h2 : env.filename ≠ "")
    (h3 : allowed_file env.filename = true) :
    ∃ p, (extract_audio env).2.head?
        = some (.saveVideo (osJoin VIDEOS_FOLDER (p ++ ".mp4"))) := by
  have h1' : ¬(env.hasFilePart = false) := by simp [h1]
  have h3' : ¬(allowed_file env.filename = false) := by simp [h3]
  obtain ⟨p, hp⟩ := get_unique_filename_ends
    ((if pyStrip env.formName = ""
      then (splitext (env.secure env.filename)).1
      else pyStrip env.formName) ++ "_" ++ env.timestamp) ".mp4" env.videos
  refine ⟨p, ?_⟩
  cases hf : env.ffmpeg with
  | error e => simp [extract_audio, h1', h2, h3', hf, hp]
  | ok u =>
    cases ht : env.transcription with
    | error e2 => simp [extract_audio, h1', h2, h3', hf, ht, hp]
    | ok t => simp [extract_audio, h1', h2, h3', hf, ht, hp]

/-- The concrete upload of the C3 counterexample and witness: file
`name.avi`, custom name `name`, everything downstream succeeding. -/
def c3Env : ExtractEnv :=
  { hasFilePart := true, filename := "name.avi", formName := "name",
    secure := fun s => s, timestamp := "20250101_120000",
    masterTimestamp := "2025-01-01 12:00:00",
    videos := [], audio := [], transcriptions := [],
    ffmpeg := .ok (), transcription := .ok "hello" }

/-- Witness for C3 (amended) at the concrete upload `name.avi`. -/
theorem C3_video_stored_as_mp4_witness :
    c3Env.hasFilePart = true
      ∧ ∃ p, (extract_audio c3Env).2.head?
          = some (.saveVideo (osJoin VIDEOS_FOLDER (p ++ ".mp4"))) :=
  ⟨rfl, C3_video_stored_as_mp4 c3Env rfl (by decide) (by decide)⟩

/-- C3 fails as stated: uploading `name.avi` (custom name `name`,
timestamp `20250101_120000`) stores the video as
`name_20250101_120000.mp4` — the stored name carries the fixed `.mp4`
extension, not the upload's original `.avi` extension. -/
theorem C3_counterexample :
    (extract_audio c3Env).2.head?
        = some (.saveVideo (osJoin VIDEOS_FOLDER "name_20250101_120000.mp4"))
    ∧ extAfterLastDot "name_20250101_120000.mp4" = "mp4"
    ∧ extAfterLastDot c3Env.filename = "avi"
    ∧ ("mp4" : String) ≠ "avi" := by
  refine ⟨by decide, by decide, by decide, by decide⟩

/-! ### C8: transcription failure after successful extraction -/

/-- C8: when transcription fails after the video was saved and the audio
extraction succeeded, the request's filesystem writes are exactly the
video save and the audio write, in that order — no transcription file is
written, no master-transcript entry is appended, and nothing on disk is
modified — and the response is a 500 JSON error body. -/
theorem C8_transcription_failure_no_partial (env : ExtractEnv) (e : PyError)
    (h1 : env.hasFilePart = true) (h2 : env.filename ≠ "")
    (h3 : allowed_file env.filename = true)
    (h4 : env.ffmpeg = .ok ()) (h5 : env.transcription = .error e) :
    (∃ vp ap, (extract_audio env).2 = [.saveVideo vp, .writeAudio ap])
    ∧ (extract_audio env).1 = .errJson 500 "Server error" (some e.msg) := by
  have h1' : ¬(env.hasFilePart = false) := by simp [h1]
  have h3' : ¬(allowed_file env.filename = false) := by simp [h3]
  constructor
  · refine ⟨osJoin VIDEOS_FOLDER (get_unique_filename
        ((if pyStrip env.formName = ""
          then (splitext (env.secure env.filename)).1
          else pyStrip env.formName) ++ "_" ++ env.timestamp) ".mp4"
        env.videos),
      osJoin AUDIO_FOLDER (get_unique_filename
        ((if pyStrip env.formName = ""
          then (splitext (env.secure env.filename)).1
          else pyStrip env.formName) ++ "_" ++ env.timestamp) ".wav"
        env.audio), ?_⟩
    simp only [extract_audio, if_neg h1', if_neg h2, if_neg h3', h4, h5]
  · simp only [extract_audio, if_neg h1', if_neg h2, if_neg h3', h4, h5]

/-- The concrete request of the C8 witness: a valid upload whose
transcription step raises. -/
def c8Env : ExtractEnv :=
  { hasFilePart := true, filename := "talk.mp4", formName := "talk",
    secure := fun s => s, timestamp := "20250101_120000",
    masterTimestamp := "2025-01-01 12:00:00",
    videos := [], audio := [], transcriptions := [],
    ffmpeg := .ok (),
    transcription := .error (.exception "Transcription failed: boom") }

/-- Witness for C8 at the concrete failing request. -/
theorem C8_transcription_failure_no_partial_witness :
    c8Env.transcription = .error (.exception "Transcription failed: boom")
      ∧ (∃ vp ap, (extract_audio c8Env).2 = [.saveVideo vp, .writeAudio ap])
      ∧ (extract_audio c8Env).1
          = .errJson 500 "Server error" (some "Transcription failed: boom") :=
  ⟨rfl, C8_transcription_failure_no_partial c8Env
    (.exception "Transcription failed: boom") rfl (by decide) (by decide)
    rfl rfl⟩

/-! ### C10: dotted custom names -/

/-- The concrete upload of C10: custom name `my.talk`, which contains a
dot. -/
def c10Env : ExtractEnv :=
  { hasFilePart := true, filename := "v.mp4", formName := "my.talk",
    secure := fun s => s, timestamp := "20250101_120000",
    masterTimestamp := "2025-01-01 12:00:00",
    videos := [], audio := [], transcriptions := [],
    ffmpeg := .ok (), transcription := .ok "hello" }

theorem rfindIdx_lt_length (p : Char → Bool) :
    ∀ (cs : List Char) (i : Nat), rfindIdx p cs = some i → i < cs.length := by
  intro cs
  induction cs with
  | nil => intro i h; simp [rfindIdx] at h
  | cons c cs ih =>
    intro i h
    simp only [rfindIdx] at h
    cases hr : rfindIdx p cs with
    | some j =>
      rw [hr] at h
      simp only [Option.some.injEq] at h
      have := ih j hr
      simp only [List.length_cons]
      omega
    | none =>
      rw [hr] at h
      by_cases hp : p c
      · simp only [hp, if_true, Option.some.injEq] at h
        simp only [List.length_cons]
        omega
      · simp [hp] at h

/-- The stem returned by `splitext` differs from the input exactly when an
extension is split off (leading-dot basenames like `.talk` split nothing,
so their stem is the whole input). -/
theorem splitext_stem_ne_iff (s : String) :
    (splitext s).1 ≠ s ↔ (splitext s).2 ≠ "" := by
  cases hd : rfindIdx (fun c => c == '.') s.data with
  | none => simp [splitext, hd]
  | some di =>
    have hlt : di < s.data.length := rfindIdx_lt_length _ s.data di hd
    simp only [splitext, hd]
    split
    · have h1 : (⟨s.data.take di⟩ : String) ≠ s := by
        intro hz
        have hdata : s.data.take di = s.data := congrArg String.data hz
        have hlen := congrArg List.length hdata
        rw [List.length_take] at hlen
        omega
      have h2 : (⟨s.data.drop di⟩ : String) ≠ "" := by
        intro hz
        have hdata : s.data.drop di = [] := congrArg String.data hz
        have hlen := congrArg List.length hdata
        rw [List.length_drop, List.length_nil] at hlen
        omega
      exact iff_of_true h1 h2
    · simp

/-- C10 (amended): for every valid upload with a nonempty user-supplied
custom name, the stored video's base is the `splitext` stem of
`custom_name ++ "_" ++ timestamp`: everything from the last dot onward is
discarded exactly when that dot starts an extension in `os.path.splitext`'s
sense, i.e. when some non-dot character precedes it.  So `my.talk` with
timestamp `T` is truncated to the stem `my` — the stored base is then not
the supplied name followed by the timestamp — while for a leading-dot name
like `.talk` the stem equals the whole of `custom_name_T` and the stored
base IS the supplied name followed by the timestamp. -/
theorem C10_dotted_custom_name_splitext (env : ExtractEnv)
    (h1 : env.hasFilePart = true) (h2 : env.filename ≠ "")
    (h3 : allowed_file env.filename = true)
    (h4 : pyStrip env.formName ≠ "") :
    (∃ k, (extract_audio env).2.head?
        = some (.saveVideo (osJoin VIDEOS_FOLDER
            (uniqueCand
              (splitext (pyStrip env.formName ++ "_" ++ env.timestamp)).1
              ".mp4" k))))
    ∧ ((splitext (pyStrip env.formName ++ "_" ++ env.timestamp)).1
          ≠ pyStrip env.formName ++ "_" ++ env.timestamp
        ↔ (splitext (pyStrip env.formName ++ "_" ++ env.timestamp)).2
            ≠ "") := by
  have h1' : ¬(env.hasFilePart = false) := by simp [h1]
  have h3' : ¬(allowed_file env.filename = false) := by simp [h3]
  have hcustom : (if pyStrip env.formName = ""
      then (splitext (env.secure env.filename)).1
      else pyStrip env.formName) = pyStrip env.formName := if_neg h4
  constructor
  · obtain ⟨k, hk⟩ := get_unique_filename_is_cand
      (pyStrip env.formName ++ "_" ++ env.timestamp) ".mp4" env.videos
    refine ⟨k, ?_⟩
    cases hf : env.ffmpeg with
    | error e => simp [extract_audio, h1', h2, h3', hf, hcustom, hk]
    | ok u =>
      cases ht : env.transcription with
      | error e2 => simp [extract_audio, h1', h2, h3', hf, ht, hcustom, hk]
      | ok t => simp [extract_audio, h1', h2, h3', hf, ht, hcustom, hk]
  · exact splitext_stem_ne_iff _

/-- Witness for C10 (amended) at the concrete custom name `my.talk`, whose
stem is `my`. -/
theorem C10_dotted_custom_name_splitext_witness :
    pyStrip c10Env.formName ≠ ""
    ∧ (splitext (pyStrip c10Env.formName ++ "_" ++ c10Env.timestamp)).1
        = "my"
    ∧ (∃ k, (extract_audio c10Env).2.head?
        = some (.saveVideo (osJoin VIDEOS_FOLDER
            (uniqueCand
              (splitext (pyStrip c10Env.formName ++ "_" ++ c10Env.timestamp)).1
              ".mp4" k)))) :=
  ⟨by decide, by decide,
    (C10_dotted_custom_name_splitext c10Env rfl (by decide) (by decide)
      (by decide)).1⟩

/-- The upload refuting C10 as stated: the custom name `.talk` contains a
dot, yet the stored base is exactly the supplied name followed by the
timestamp. -/
def c10DotEnv : ExtractEnv :=
  { hasFilePart := true, filename := "v.mp4", formName := ".talk",
    secure := fun s => s, timestamp := "20250101_120000",
    masterTimestamp := "2025-01-01 12:00:00",
    videos := [], audio := [], transcriptions := [],
    ffmpeg := .ok (), transcription := .ok "hello" }

/-- C10 fails as stated for leading-dot names: custom name `.talk`
contains a dot, but `os.path.splitext` strips nothing from
`.talk_20250101_120000` (a dot leading the basename never starts an
extension), so the stored video is `.talk_20250101_120000.mp4` — its base
IS the supplied name followed by the timestamp. -/
theorem C10_counterexample :
    c10DotEnv.formName.data.contains '.' = true
    ∧ splitext (c10DotEnv.formName ++ "_" ++ c10DotEnv.timestamp)
        = (".talk_20250101_120000", "")
    ∧ (extract_audio c10DotEnv).2.head?
        = some (.saveVideo (osJoin VIDEOS_FOLDER
            (c10DotEnv.formName ++ "_" ++ c10DotEnv.timestamp ++ ".mp4"))) := by
  refine ⟨by decide, by decide, by decide⟩

/-! ### C4: the video/audio download routes -/

/-- The `video_url` of a success response, if the response is one. -/
def respVideoUrl : Resp → Option String
  | .ok p => some p.video_url
  | _ => none

/-- The `audio_url` of a success response, if the response is one. -/
def respAudioUrl : Resp → Option String
  | .ok p => some p.audio_url
  | _ => none

/-- The concrete upload of C4: a fully successful extraction. -/
def c4Env : ExtractEnv :=
  { hasFilePart := true, filename := "clip.avi", formName := "clip",
    secure := fun s => s, timestamp := "20250101_120000",
    masterTimestamp := "2025-01-01 12:00:00",
    videos := [], audio := [], transcriptions := [],
    ffmpeg := .ok (), transcription := .ok "hello" }

/-- C4 (code bug): a successful extraction's payload directs clients to
`GET /api/videos/<video_filename>` and `GET /api/download/<audio_filename>`,
but `app.py` registers no such routes — dispatch finds no matching route,
so the framework answers 404 — while the transcription download route is
registered.  The video and audio download operations the payload (and the
spec) promise are absent from the HTTP surface. -/
theorem C4_video_audio_routes_missing :
    respVideoUrl (extract_audio c4Env).1
        = some "/api/videos/clip_20250101_120000.mp4"
    ∧ respAudioUrl (extract_audio c4Env).1
        = some "/api/download/clip_20250101_120000.wav"
    ∧ routeFor "GET" "/api/videos/clip_20250101_120000.mp4" = none
    ∧ routeFor "GET" "/api/download/clip_20250101_120000.wav" = none
    ∧ (routeFor "GET"
        "/api/download-transcription/clip_20250101_120000.txt").isSome
          = true := by
  refine ⟨by decide, by decide, by decide, by decide, by decide⟩

end AudioExtractor
